import Mathlib

/-!
Verification of the Ludo server core (NestJS gateway + validator + board
generator) against its natural-language specification.  The TypeScript
sources are shallowly embedded: every mutable handler becomes a pure
function from the pre-state to an outcome, the Redis store is modelled by
the values the handlers would have read from it, and JavaScript string
square identifiers become an inductive `SquareId`.
-/

set_option maxHeartbeats 1000000

namespace Ludo

/-- Modelled from the spec: the colors enumeration module (`types/colors`)
is not under `src/`; the spec fixes "one of 4 fixed enumerants", exposed as
the list of all four in declaration order. -/
inductive ColorEnum
  | green
  | yellow
  | blue
  | red
deriving DecidableEq, Repr

/-- Modelled from the spec: the `colors` list holds the four enumerants in
declaration order. -/
def colors : List ColorEnum := [.green, .yellow, .blue, .red]

/-- Position of a color in the enumeration order. -/
def colorOrder : ColorEnum → Nat
  | .green => 0
  | .yellow => 1
  | .blue => 2
  | .red => 3

/-- Square identifiers: `road-<n>`, `initial-<color>-<n>`, `final-<color>-<n>`
(the template-literal string type `SquareId` of `types/pawn.ts`). -/
inductive SquareId
  | road (n : Nat)
  | initial (c : ColorEnum) (n : Nat)
  | final (c : ColorEnum) (n : Nat)
deriving DecidableEq, Repr

/-- `pawn.squareId.includes('initial')` on well-formed identifiers. -/
def SquareId.isInitial : SquareId → Bool
  | .initial _ _ => true
  | _ => false

/-- `road.id.includes('final')` on well-formed identifiers. -/
def SquareId.isFinal : SquareId → Bool
  | .final _ _ => true
  | _ => false

/-- `getSquareIndex` of the gateway: `split('-')` and parse the trailing
number (`splitId[2] ?? splitId[1]`). -/
def squareIndexOf : SquareId → Nat
  | .road n => n
  | .initial _ n => n
  | .final _ n => n

/-- The inbound event names (`SubscribeEventsEnum`). -/
inductive GameEvent
  | createGame
  | joinGame
  | chooseColor
  | rollDice
  | rollResult
  | movedPawn
  | moveInitial
  | moveRoad
  | moveFinal
deriving DecidableEq, Repr

/-- `Pawn` of `types/pawn.ts`; optional TS fields default to their falsy
reading. -/
structure Pawn where
  color : ColorEnum
  index : Nat
  squareId : SquareId
  endReached : Bool := false
  action : Option (GameEvent × Nat) := none
deriving DecidableEq, Repr

/-- A shared-road cell (`types/square`): flags are optional in TS and read
falsy when absent. -/
structure Square where
  id : SquareId
  color : ColorEnum
  safeZone : Bool := false
  exit : Bool := false
  entrance : Bool := false
deriving DecidableEq, Repr

/-- An initial-zone cell. -/
structure InitialSquare where
  id : SquareId
deriving DecidableEq, Repr

/-- A final-lane cell. -/
structure FinalSquare where
  id : SquareId
deriving DecidableEq, Repr

/-- The TS `ColorSquare<T>` dictionary keyed by the four colors. -/
structure ColorMap (α : Type) where
  green : List α
  yellow : List α
  blue : List α
  red : List α
deriving DecidableEq, Repr

def ColorMap.get (m : ColorMap α) : ColorEnum → List α
  | .green => m.green
  | .yellow => m.yellow
  | .blue => m.blue
  | .red => m.red

def ColorMap.set (m : ColorMap α) : ColorEnum → List α → ColorMap α
  | .green, v => { m with green := v }
  | .yellow, v => { m with yellow := v }
  | .blue, v => { m with blue := v }
  | .red, v => { m with red := v }

/-- `AnimationTypeEnum`. -/
inductive AnimationType
  | added
  | removed
  | animated
deriving DecidableEq, Repr

/-- `PawnSquarePositionEnum`: the four screen quadrants. -/
inductive PawnPos
  | topLeft
  | topRight
  | bottomLeft
  | bottomRight
deriving DecidableEq, Repr

/-- A mitosis grouping marker (`types/mitosis-identifier`); `position` may be
undefined when all four quadrants were taken. -/
structure MitosisIdentifier where
  color : ColorEnum
  index : Nat
  position : Option PawnPos
  type : AnimationType
deriving DecidableEq, Repr

/-- A karyogamy grouping marker (fields as pushed by `addKaryogamyIfNeeded`). -/
structure KaryogamyIdentifier where
  color : ColorEnum
  id : Nat
  type : AnimationType
  isMain : Bool
deriving DecidableEq, Repr

/-- The captured-pawn record stored on the last-move descriptor. -/
structure SmashRecord where
  color : ColorEnum
  index : Nat
deriving DecidableEq, Repr

/-- The last-move descriptor `board.movePawn`. -/
structure MovePawn where
  color : ColorEnum
  index : Nat
  startingSquareId : SquareId
  squaresIds : List SquareId
  smash : Option SmashRecord := none
deriving DecidableEq, Repr

/-- Lookup in a JS-object map keyed by square identifiers. -/
def lookupSq (m : List (SquareId × α)) (k : SquareId) : Option α :=
  (m.find? (fun e => e.1 = k)).map (fun e => e.2)

/-- Assignment `m[k] = v` in a JS-object map: replace the existing entry in
place or append a new one (JS objects keep insertion order). -/
def storeSq (m : List (SquareId × α)) (k : SquareId) (v : α) : List (SquareId × α) :=
  if m.any (fun e => e.1 = k) then
    m.map (fun e => if e.1 = k then (k, v) else e)
  else
    m ++ [(k, v)]

/-- The board aggregate (`types/board`). -/
structure Board where
  road : List Square
  initialZone : ColorMap InitialSquare
  finalZone : ColorMap FinalSquare
  pawns : ColorMap Pawn
  movePawn : Option MovePawn
  mitosis : List (SquareId × List MitosisIdentifier)
  karyogamy : List (SquareId × List KaryogamyIdentifier)
deriving DecidableEq, Repr

/-- Dice state. -/
structure Dice where
  count : Nat
  result : Nat
  ableToRoll : Bool
  rollAnimation : Bool
deriving DecidableEq, Repr

/-- A player: session identifier plus optional chosen color. -/
structure Player where
  socketId : String
  color : Option ColorEnum
deriving DecidableEq, Repr

/-- The three ordered winners slots. -/
structure Winners where
  w1 : Option ColorEnum
  w2 : Option ColorEnum
  w3 : Option ColorEnum
deriving DecidableEq, Repr

/-- `Object.values(game.winners)` in slot order. -/
def winnersValues (w : Winners) : List (Option ColorEnum) := [w.w1, w.w2, w.w3]

/-- The Game aggregate. -/
structure Game where
  id : String
  players : List Player
  board : Board
  current : String
  dice : Dice
  winners : Winners
deriving DecidableEq, Repr

/-! ## Board generator (`BoardGeneratorService`) -/

/-- `generateInitialZone`: four holding cells per color. -/
def generateInitialZone : ColorMap InitialSquare :=
  let mk := fun (c : ColorEnum) => (List.range 4).map (fun i => InitialSquare.mk (.initial c i))
  { green := mk .green, yellow := mk .yellow, blue := mk .blue, red := mk .red }

/-- `generateFinalZone`: six private-lane cells per color. -/
def generateFinalZone : ColorMap FinalSquare :=
  let mk := fun (c : ColorEnum) => (List.range 6).map (fun i => FinalSquare.mk (.final c i))
  { green := mk .green, yellow := mk .yellow, blue := mk .blue, red := mk .red }

/-- `generateColorRoad`: the 13-cell segment of one color; local offset 3 is
safe, 6 is the exit, 8 is the entrance (also safe). -/
def generateColorRoad (color : ColorEnum) (colorIndex : Nat) : List Square :=
  (List.range 13).map (fun i =>
    { id := .road (colorIndex * 13 + i)
      color := color
      safeZone := i == 3 || i == 8
      exit := i == 6
      entrance := i == 8 })

/-- `generateRoad`: the four segments concatenated in enumeration order. -/
def generateRoad : List Square :=
  (colors.enum).flatMap (fun e => generateColorRoad e.2 e.1)

/-- `generatePawns`: pawn `i` of each color starts on `initial-<color>-<i>`. -/
def generatePawns : ColorMap Pawn :=
  let mk := fun (c : ColorEnum) =>
    (List.range 4).map (fun i => ({ color := c, index := i, squareId := .initial c i } : Pawn))
  { green := mk .green, yellow := mk .yellow, blue := mk .blue, red := mk .red }

/-- `createBoard`. -/
def createBoard : Board :=
  { finalZone := generateFinalZone
    initialZone := generateInitialZone
    road := generateRoad
    pawns := generatePawns
    movePawn := none
    karyogamy := []
    mitosis := [] }

/-! ## Gateway helpers (`GameGateway` private methods) -/

/-- Update the first list element satisfying `p` (JS code mutates the object
returned by `find`/the first element of a `filter`). -/
def updateFirst (p : α → Bool) (f : α → α) : List α → List α
  | [] => []
  | x :: xs => if p x then f x :: xs else x :: updateFirst p f xs

/-- `getPawnsOnRoad`: all pawns of all colors standing on `roadId`, in
enumeration-then-list order. -/
def getPawnsOnRoad (game : Game) (roadId : SquareId) : List Pawn :=
  colors.flatMap (fun c => (game.board.pawns.get c).filter (fun p => p.squareId = roadId))

/-- `getNextPlayer`, with an explicit fuel parameter making the unbounded TS
recursion total: `none` means the recursion did not finish within `fuel`
probes (the TS function would still be recursing — or crashed reading a
missing slot). -/
def getNextPlayerF : Nat → String → List Player → Winners → Option String
  | 0, _, _, _ => none
  | fuel + 1, current, players, winners =>
    let playerIndex : Int :=
      ((players.findIdx? (fun p => p.socketId = current)).map
        (fun i => (i : Int))).getD (-1)
    let nextIndex : Int := if playerIndex < (3 : Int) then playerIndex + 1 else 0
    match players.get? nextIndex.toNat with
    | none => none
    | some nextPlayer =>
      if nextPlayer.color ∈ winnersValues winners then
        getNextPlayerF fuel nextPlayer.socketId players winners
      else
        some nextPlayer.socketId

/-- `getWinnerPosition`: number of filled slots plus one. -/
def getWinnerPosition (w : Winners) : Nat :=
  ((winnersValues w).filter (fun v => v.isSome)).length + 1

/-- `game.winners[getWinnerPosition(...)] = color`. -/
def setWinner (w : Winners) (c : ColorEnum) : Winners :=
  match getWinnerPosition w with
  | 1 => { w with w1 := some c }
  | 2 => { w with w2 := some c }
  | 3 => { w with w3 := some c }
  | _ => w

/-- The destination square resolved at the end of `moveRoad`:
`road.find(...) ?? finalZone[color].find(...)`.  A final-lane square has no
`safeZone` field, which reads falsy in TS. -/
structure DestSquare where
  id : SquareId
  safeZone : Bool
deriving DecidableEq, Repr

/-- `game.board.road.find(r => r.id === last) ?? game.board.finalZone[color].find(...)`. -/
def findDest (board : Board) (c : ColorEnum) (last : SquareId) : Option DestSquare :=
  match board.road.find? (fun r => r.id = last) with
  | some r => some ⟨r.id, r.safeZone⟩
  | none =>
    match (board.finalZone.get c).find? (fun f => f.id = last) with
    | some f => some ⟨f.id, false⟩
    | none => none

/-- `smashPawn`: no capture on a final-lane or safe destination, or unless
exactly two pawns occupy the destination; otherwise the first pawn of
another color standing there (colors scanned in enumeration order). -/
def smashPawn (game : Game) (dest : DestSquare) (pawn : Pawn) : Option Pawn :=
  if dest.id.isFinal then none
  else if dest.safeZone then none
  else if (getPawnsOnRoad game dest.id).length ≠ 2 then none
  else
    (colors.filter (fun c => c ≠ pawn.color)).findSome?
      (fun c => (game.board.pawns.get c).find? (fun p => p.squareId = dest.id))

/-- `getNextPosition`: the quadrant already claimed by this color, else the
first unclaimed quadrant in fixed preference order (possibly none). -/
def getNextPosition (mitosis : List MitosisIdentifier) (color : ColorEnum) : Option PawnPos :=
  let currentColorPositions :=
    (mitosis.find? (fun m => m.color = color)).bind (fun m => m.position)
  match currentColorPositions with
  | some p => some p
  | none =>
    [PawnPos.topLeft, PawnPos.topRight, PawnPos.bottomLeft, PawnPos.bottomRight].find?
      (fun p => ¬ mitosis.any (fun m => m.position = some p))

/-- First-occurrence deduplication, matching JS `new Set(...)` iteration
order. -/
def firstOccurrences (l : List ColorEnum) : List ColorEnum :=
  l.foldl (fun acc c => if c ∈ acc then acc else acc ++ [c]) []

/-- `addMitosisIfNeeded`. -/
def addMitosisIfNeeded (game : Game) (movingPawn : Pawn) : Game :=
  let pawnsOnRoad := getPawnsOnRoad game movingPawn.squareId
  if pawnsOnRoad.length < 2 then game
  else
    match pawnsOnRoad with
    | [] => game
    | p0 :: _ =>
      if pawnsOnRoad.all (fun p => p.color = p0.color) then game
      else
        let ms0 := (lookupSq game.board.mitosis movingPawn.squareId).getD []
        let ms :=
          colors.foldl (fun ms color =>
            let pawns := pawnsOnRoad.filter (fun p => p.color = color)
            if pawns.isEmpty then ms
            else
              let mitosisPawns := ms.filter (fun m => m.color = color)
              let pawnsToAdd :=
                pawns.filter (fun p => ¬ mitosisPawns.any (fun m => m.index = p.index))
              let position := getNextPosition ms color
              ms ++ pawnsToAdd.map (fun p =>
                ({ color := p.color, index := p.index, position := position
                   type := .added } : MitosisIdentifier))) ms0
        { game with board :=
            { game.board with mitosis := storeSq game.board.mitosis movingPawn.squareId ms } }

/-- `removeMitosisIfNeeded`: flag the departing pawn's marker "removed". -/
def removeMitosisIfNeeded (game : Game) (pawn : Pawn) : Game :=
  let pawnsOnRoad := getPawnsOnRoad game pawn.squareId
  if pawnsOnRoad.isEmpty then game
  else
    match lookupSq game.board.mitosis pawn.squareId with
    | none => game
    | some ms =>
      match ms.find? (fun m => m.color = pawn.color ∧ m.index = pawn.index) with
      | none => game
      | some _ =>
        let ms := updateFirst (fun m => m.color = pawn.color ∧ m.index = pawn.index)
          (fun m => { m with type := .removed }) ms
        { game with board :=
            { game.board with mitosis := storeSq game.board.mitosis pawn.squareId ms } }

/-- Set `isMain := true` on the first marker of `color` (the JS code mutates
`karyogamyPawns[0]`, the first element of a filter of the stored list). -/
def markFirstMain (k : List KaryogamyIdentifier) (color : ColorEnum)
    (alive : KaryogamyIdentifier → Bool) : List KaryogamyIdentifier :=
  updateFirst (fun kk => kk.color = color ∧ alive kk) (fun kk => { kk with isMain := true }) k

/-- `addKaryogamyIfNeeded`. -/
def addKaryogamyIfNeeded (game : Game) (movingPawn : Pawn) : Game :=
  let pawnsOnRoad := getPawnsOnRoad game movingPawn.squareId
  if pawnsOnRoad.length < 2 then game
  else
    let pawnsOnRoadColors := pawnsOnRoad.map (fun p => p.color)
    let dupColors := firstOccurrences (pawnsOnRoadColors.filter
      (fun color => (pawnsOnRoadColors.filter (fun c => c = color)).length > 1))
    if dupColors.isEmpty then game
    else
      let k0 := (lookupSq game.board.karyogamy movingPawn.squareId).getD []
      let k :=
        dupColors.foldl (fun k color =>
          let pawns := pawnsOnRoad.filter (fun p =>
            p.color = color ∧ ¬ k.any (fun kk => kk.id = p.index ∧ kk.color = color))
          if pawns.isEmpty then k
          else
            let k := k ++ pawns.map (fun p =>
              ({ color := p.color, id := p.index, type := .added, isMain := false } :
                KaryogamyIdentifier))
            if (k.filter (fun kk => kk.color = color)).any (fun kk => kk.isMain) then k
            else markFirstMain k color (fun _ => true)) k0
      { game with board :=
          { game.board with karyogamy := storeSq game.board.karyogamy movingPawn.squareId k } }

/-- `removeKaryogamyIfNeeded`: flag the departing pawn's marker "removed",
clear its main flag, and promote the first surviving marker of the color. -/
def removeKaryogamyIfNeeded (game : Game) (pawn : Pawn) : Game :=
  let pawnsOnRoad := getPawnsOnRoad game pawn.squareId
  if pawnsOnRoad.isEmpty then game
  else
    match lookupSq game.board.karyogamy pawn.squareId with
    | none => game
    | some k =>
      match k.find? (fun kk => kk.color = pawn.color ∧ kk.id = pawn.index) with
      | none => game
      | some _ =>
        let k := updateFirst (fun kk => kk.color = pawn.color ∧ kk.id = pawn.index)
          (fun kk => { kk with type := .removed, isMain := false }) k
        let karyogamyPawns :=
          k.filter (fun kk => kk.color = pawn.color ∧ kk.type ≠ .removed)
        let k :=
          if ¬ karyogamyPawns.isEmpty ∧ ¬ karyogamyPawns.any (fun kk => kk.isMain) then
            markFirstMain k pawn.color (fun kk => kk.type ≠ .removed)
          else k
        { game with board :=
            { game.board with karyogamy := storeSq game.board.karyogamy pawn.squareId k } }

/-- Which of the two marker maps `clearMutations` is pruning. -/
inductive MutKind
  | mitosis
  | karyogamy
deriving DecidableEq, Repr

/-- Drop removed markers of one cell and settle survivors to the animated
state. -/
def pruneCell (game : Game) (k : MutKind) (sq : SquareId) : Game :=
  match k with
  | .mitosis =>
    match lookupSq game.board.mitosis sq with
    | none => game
    | some ms =>
      let ms := (ms.filter (fun m => m.type ≠ .removed)).map
        (fun m => { m with type := .animated })
      { game with board := { game.board with mitosis := storeSq game.board.mitosis sq ms } }
  | .karyogamy =>
    match lookupSq game.board.karyogamy sq with
    | none => game
    | some ks =>
      let ks := (ks.filter (fun m => m.type ≠ .removed)).map
        (fun m => { m with type := .animated })
      { game with board := { game.board with karyogamy := storeSq game.board.karyogamy sq ks } }

/-- `clearMutations`: prunes the cell obtained by `movePawn.squaresIds.shift()`
(the first remaining *path* cell — the shift mutates the stored descriptor, so
a second call sees the tail) and the moving pawn's current cell.  `none`
models the TS crash when the descriptor's pawn cannot be found. -/
def clearMutations (game : Game) (k : MutKind) : Option Game :=
  match game.board.movePawn with
  | none => some game
  | some mp =>
    match (game.board.pawns.get mp.color).find? (fun p => p.index = mp.index) with
    | none => none
    | some removedPawn =>
      let oldSquareId := mp.squaresIds.head?
      let mp1 := { mp with squaresIds := mp.squaresIds.tail }
      let game := { game with board := { game.board with movePawn := some mp1 } }
      let cells :=
        (match oldSquareId with
         | some s => [s]
         | none => []) ++ [removedPawn.squareId]
      some (cells.foldl (fun g sq => pruneCell g k sq) game)

/-! ## The road-move walk (`moveRoad` lines 284–322) -/

/-- One step of the walk: bump the final-lane counter when it is already
enabled or this cell is the mover's own exit, then emit either the private
lane cell at the counter value or the ring cell itself. -/
def roadStep (c : ColorEnum) (st : Int × List SquareId) (sq : Square) : Int × List SquareId :=
  let fi := if st.1 > -2 ∨ (sq.color = c ∧ sq.exit = true) then st.1 + 1 else st.1
  (fi, st.2 ++ [if fi ≥ 0 then SquareId.final c fi.toNat else sq.id])

/-- The ordered path of square identifiers produced by a road move: walk the
ring forward from the pawn's offset, wrapping past the last ring index, with
the final-lane counter starting at `-1` when the pawn already stands on its
own exit cell and at `-2` otherwise. -/
def roadPath (road : List Square) (c : ColorEnum) (startId : SquareId) (d : Nat) :
    List SquareId :=
  let roadIndex := squareIndexOf startId
  let lastRoadIndex := road.length - 1
  let targetIndex := roadIndex + d
  let fi0 : Int :=
    if road.any (fun r => r.id = startId ∧ r.color = c ∧ r.exit = true) then -1 else -2
  let seg1 := (road.take (min targetIndex lastRoadIndex + 1)).drop (roadIndex + 1)
  let st1 := seg1.foldl (roadStep c) (fi0, [])
  let overlay := if targetIndex > lastRoadIndex then targetIndex - lastRoadIndex else 0
  let st2 := (road.take overlay).foldl (roadStep c) st1
  st2.2

/-- Path plus resolved destination and `endReached` of a road move; `none`
models the TS undefined dereference when the destination lookup fails. -/
def moveRoadResolve (board : Board) (c : ColorEnum) (startId : SquareId) (d : Nat) :
    Option (List SquareId × SquareId × Bool) :=
  let path := roadPath board.road c startId d
  match path.getLast? with
  | none => none
  | some last =>
    (findDest board c last).map (fun dest => (path, dest.id, decide (dest.id = .final c 5)))

/-! ## Validator (`GameValidatorService`)

The Redis reads of the validator are modelled by passing in the values the
store would have returned: `gameId?` is the session-to-game lookup and
`stored?` the parsed game.  The pure checks follow the TS order exactly. -/

/-- Result of a validation: `thrown` models a TS runtime exception,
`err` a rejection payload, `ok` the validated (unmodified) game. -/
inductive VOut
  | thrown
  | err (msg : String)
  | ok (g : Game)
deriving DecidableEq, Repr

/-- `Object.keys(game.winners).find(key => game.winners[key] === player.color)`,
interpolated into the rejection message (`"undefined"` when absent, as JS
string interpolation would produce). -/
def winnersKeyOf (w : Winners) (c : ColorEnum) : String :=
  if w.w1 = some c then "1"
  else if w.w2 = some c then "2"
  else if w.w3 = some c then "3"
  else "undefined"

/-- `validateGame`. -/
def validateGame (gameId? : Option String) (stored? : Option Game) (id : String) : VOut :=
  match gameId? with
  | none => .err "Not in game"
  | some _ =>
    match stored? with
    | none => .err "Invalid game id"
    | some game =>
      match game.players.find? (fun p => p.socketId = id) with
      | none => .err "Not in game"
      | some player =>
        if (winnersValues game.winners).all (fun w => w.isSome) then
          .err "Game is already finished"
        else
          match player.color with
          | some c =>
            if some c ∈ winnersValues game.winners then
              .err ("You are already the top " ++ winnersKeyOf game.winners c)
            else .ok game
          | none => .ok game

/-- `validateChoosenColor`; the requested color is optional in TS and an
absent value fails the `colors.includes` test. -/
def validateChoosenColor (gameId? : Option String) (stored? : Option Game) (id : String)
    (color : Option ColorEnum) : VOut :=
  match validateGame gameId? stored? id with
  | .ok game =>
    if ¬ ((match color with
           | some c => decide (c ∈ colors)
           | none => false) = true) then .err "Invalid color"
    else if game.players.any (fun p => p.color = color) then .err "Color already taken"
    else .ok game
  | v => v

/-- `validateDiceRoll`. -/
def validateDiceRoll (gameId? : Option String) (stored? : Option Game) (id : String) : VOut :=
  match validateGame gameId? stored? id with
  | .ok game =>
    if game.current ≠ id then .err "Not your turn"
    else if ¬ game.dice.ableToRoll then .err "Dice cannot be rolled right now"
    else if game.players.length ≠ 4 then .err "Not enough players"
    else .ok game
  | v => v

/-- `validateDiceResult`. -/
def validateDiceResult (gameId? : Option String) (stored? : Option Game) (id : String) : VOut :=
  match validateGame gameId? stored? id with
  | .ok game =>
    if game.current ≠ id then .err "Not your turn"
    else if game.players.length ≠ 4 then .err "Not enough players"
    else .ok game
  | v => v

/-- Outcome of the private `validateMove` helper (`void` return = `fine`). -/
inductive MoveCheck
  | thrown
  | err (msg : String)
  | fine
deriving DecidableEq, Repr

/-- `validateMove`: turn, player count, pawn existence (by `index` field) and
pending-action check.  `thrown` models the TS dereference of an absent
player or of `pawns[null]` for a colorless player. -/
def validateMove (game : Game) (move : GameEvent) (id : String) (pawnIndex : Nat) : MoveCheck :=
  match game.players.find? (fun p => p.socketId = id) with
  | none => .thrown
  | some player =>
    if player.socketId ≠ game.current then .err "Not your turn"
    else if game.players.length ≠ 4 then .err "Not enough players"
    else
      match player.color with
      | none => .thrown
      | some c =>
        match (game.board.pawns.get c).find? (fun p => p.index = pawnIndex) with
        | none => .err "Invalid pawn index"
        | some pawn =>
          if pawn.action.map (fun a => a.1) ≠ some move then .err "Pawn cannot be moved"
          else .fine

/-- `validateInitialMove`. -/
def validateInitialMove (gameId? : Option String) (stored? : Option Game) (id : String)
    (pawnIndex : Nat) : VOut :=
  match validateGame gameId? stored? id with
  | .ok game =>
    match validateMove game .moveInitial id pawnIndex with
    | .thrown => .thrown
    | .err e => .err e
    | .fine =>
      if ¬ (game.dice.result = 1 ∨ game.dice.result = 6) then
        .err "Dice roll is neither 1 nor 6"
      else .ok game
  | v => v

/-- `validateFinalMove`: additionally forbids overshooting lane index 5.
`5 - parseInt(pawn.squareId.split('-')[2])` is `NaN` for a ring identifier
(no third segment), and a `NaN` comparison is false, so a ring pawn passes
the overshoot check. -/
def validateFinalMove (gameId? : Option String) (stored? : Option Game) (id : String)
    (pawnIndex : Nat) : VOut :=
  match validateGame gameId? stored? id with
  | .ok game =>
    match validateMove game .moveFinal id pawnIndex with
    | .thrown => .thrown
    | .err e => .err e
    | .fine =>
      match game.players.find? (fun p => p.socketId = id) with
      | none => .thrown
      | some player =>
        match player.color with
        | none => .thrown
        | some c =>
          match (game.board.pawns.get c).find? (fun p => p.index = pawnIndex) with
          | none => .thrown
          | some pawn =>
            match pawn.squareId with
            | .road _ => .ok game
            | .initial _ n | .final _ n =>
              if (game.dice.result : Int) > 5 - (n : Int) then .err "Dice result is too high"
              else .ok game
  | v => v

/-- `validateRoadMove`. -/
def validateRoadMove (gameId? : Option String) (stored? : Option Game) (id : String)
    (pawnIndex : Nat) : VOut :=
  match validateGame gameId? stored? id with
  | .ok game =>
    match validateMove game .moveRoad id pawnIndex with
    | .thrown => .thrown
    | .err e => .err e
    | .fine => .ok game
  | v => v

/-- `validateMovedPawn` is exactly `validateGame`. -/
def validateMovedPawn (gameId? : Option String) (stored? : Option Game) (id : String) : VOut :=
  validateGame gameId? stored? id

/-! ## Event handlers (`GameGateway`)

Each handler is a pure function of the store contents it would have read.
`rejected msg` is the synchronous `{ error: msg }` payload with no state
change; `silent` is a bare `return` (no payload, no state change);
`crashed` is a TS runtime exception (no payload, no state change);
`stuck` marks the next-player recursion exceeding its fuel; only
`updated`/`finishedGame` carry a successor state — `updated` is persisted
and broadcast to the room, `finishedGame` is broadcast and then the game
and session keys are purged from the store. -/

inductive Outcome
  | rejected (msg : String)
  | silent
  | crashed
  | stuck
  | updated (g : Game)
  | finishedGame (g : Game)
deriving DecidableEq, Repr

/-- `chooseColor`. -/
def chooseColorHandler (gameId? : Option String) (stored? : Option Game) (id : String)
    (color : Option ColorEnum) : Outcome :=
  match validateChoosenColor gameId? stored? id color with
  | .thrown => .crashed
  | .err e => .rejected e
  | .ok game =>
    match game.players.find? (fun p => p.socketId = id) with
    | none => .crashed
    | some _ =>
      let players := updateFirst (fun p => p.socketId = id)
        (fun p => { p with color := color }) game.players
      .updated { game with
                 players := players
                 dice := { game.dice with ableToRoll := players.length == 4 } }

/-- `rollDice`; the uniform draw `getRoll()` is passed in as `roll`. -/
def rollDiceHandler (gameId? : Option String) (stored? : Option Game) (id : String)
    (roll : Nat) : Outcome :=
  match validateDiceRoll gameId? stored? id with
  | .thrown => .crashed
  | .err e => .rejected e
  | .ok game =>
    .updated { game with dice :=
      { game.dice with
        ableToRoll := false
        rollAnimation := true
        result := roll
        count := game.dice.count + 1 } }

/-- The pending-action assignment loop of `rollResult`. -/
def assignPawnActions (d : Nat) (pawns : List Pawn) : List Pawn :=
  pawns.map (fun pawn =>
    if pawn.squareId.isInitial then
      if d = 1 ∨ d = 6 then { pawn with action := some (.moveInitial, pawn.index) } else pawn
    else
      let squarePositionIndex := squareIndexOf pawn.squareId
      if pawn.squareId.isFinal then
        if squarePositionIndex = 5 then pawn
        else if d ≤ 5 - squarePositionIndex then
          { pawn with action := some (.moveFinal, pawn.index) }
        else pawn
      else { pawn with action := some (.moveRoad, pawn.index) })

/-- `rollResult`. -/
def rollResultHandler (fuel : Nat) (gameId? : Option String) (stored? : Option Game)
    (id : String) : Outcome :=
  match validateDiceResult gameId? stored? id with
  | .thrown => .crashed
  | .err e => .rejected e
  | .ok game =>
    match game.players.find? (fun p => p.socketId = id) with
    | none => .crashed
    | some player =>
      match player.color with
      | none => .crashed
      | some c =>
        let pawns := assignPawnActions game.dice.result (game.board.pawns.get c)
        let g1 := { game with
          board := { game.board with pawns := game.board.pawns.set c pawns }
          dice := { game.dice with rollAnimation := false } }
        if pawns.all (fun p => p.action = none) then
          match getNextPlayerF fuel g1.current g1.players g1.winners with
          | none => .stuck
          | some nxt =>
            .updated { g1 with
              current := nxt
              dice := { g1.dice with count := 0, ableToRoll := true } }
        else .updated g1

/-- `moveInitial`: relocate the pawn to its color's entrance cell. -/
def moveInitialHandler (gameId? : Option String) (stored? : Option Game) (id : String)
    (pawnIndex : Nat) : Outcome :=
  match validateInitialMove gameId? stored? id pawnIndex with
  | .thrown => .crashed
  | .err e => .rejected e
  | .ok game =>
    match game.players.find? (fun p => p.socketId = id) with
    | none => .crashed
    | some player =>
      match player.color with
      | none => .crashed
      | some c =>
        match (game.board.pawns.get c).get? pawnIndex with
        | none => .crashed
        | some pawn =>
          let startingSquareId := pawn.squareId
          match game.board.road.find? (fun r => r.color = pawn.color ∧ r.entrance = true) with
          | none => .crashed
          | some road =>
            let pawn1 := { pawn with action := none, squareId := road.id }
            let pawns := ((game.board.pawns.get c).map
              (fun p => { p with action := none })).set pawnIndex pawn1
            let movePawn : MovePawn :=
              { color := pawn.color
                index := pawn.index
                startingSquareId := startingSquareId
                squaresIds := [road.id] }
            let g1 := { game with board :=
              { game.board with
                pawns := game.board.pawns.set c pawns
                movePawn := some movePawn } }
            let g2 := addMitosisIfNeeded g1 pawn1
            .updated (addKaryogamyIfNeeded g2 pawn1)

/-- `pawn.squareId.includes('5')` on a `final-<color>-<n>` identifier: the
color names carry no digit, so this is a decimal-digit test on `n`
(`Char.ofNat 53` is the digit five). -/
def hasDigitFive (n : Nat) : Bool := (Nat.repr n).contains (Char.ofNat 53)

/-- `moveFinal`: advance inside the private lane. -/
def moveFinalHandler (gameId? : Option String) (stored? : Option Game) (id : String)
    (pawnIndex : Nat) : Outcome :=
  match validateFinalMove gameId? stored? id pawnIndex with
  | .thrown => .crashed
  | .err e => .rejected e
  | .ok game =>
    match game.players.find? (fun p => p.socketId = id) with
    | none => .crashed
    | some player =>
      match player.color with
      | none => .crashed
      | some c =>
        match (game.board.pawns.get c).get? pawnIndex with
        | none => .crashed
        | some pawn =>
          let startingSquareId := pawn.squareId
          let game := removeKaryogamyIfNeeded game pawn
          let currentSquareIndex := squareIndexOf pawn.squareId
          let newIndex := currentSquareIndex + game.dice.result
          let pawn1 := { pawn with
            action := none
            squareId := SquareId.final pawn.color newIndex
            endReached := hasDigitFive newIndex }
          let pawns := ((game.board.pawns.get c).map
            (fun p => { p with action := none })).set pawnIndex pawn1
          let squaresIds := (List.range (newIndex - currentSquareIndex)).map
            (fun i => SquareId.final pawn.color (currentSquareIndex + i + 1))
          let movePawn : MovePawn :=
            { color := pawn.color
              index := pawn.index
              squaresIds := squaresIds
              startingSquareId := startingSquareId }
          let g1 := { game with board :=
            { game.board with
              pawns := game.board.pawns.set c pawns
              movePawn := some movePawn } }
          .updated (addKaryogamyIfNeeded g1 pawn1)

/-- The capture application inside `moveRoad`: if `smashPawn` found a
victim, reset it to its own initial-zone cell at its own index (the code
mutates the found pawn object, i.e. the first pawn of that color standing on
the destination) and record it on the last-move descriptor. -/
def applySmash (g1 : Game) (movePawn : MovePawn) (dest : DestSquare) (pawn1 : Pawn) : Game :=
  match smashPawn g1 dest pawn1 with
  | none => g1
  | some q =>
    let qPawns := updateFirst (fun p => p.squareId = dest.id)
      (fun p => { p with squareId := SquareId.initial q.color q.index })
      (g1.board.pawns.get q.color)
    { g1 with board :=
      { g1.board with
        pawns := g1.board.pawns.set q.color qPawns
        movePawn := some { movePawn with smash := some ⟨q.color, q.index⟩ } } }

/-- `moveRoad`: walk the ring (possibly into the private lane), resolve the
destination, apply a capture if `smashPawn` found a victim, then refresh the
grouping markers. -/
def moveRoadHandler (gameId? : Option String) (stored? : Option Game) (id : String)
    (pawnIndex : Nat) : Outcome :=
  match validateRoadMove gameId? stored? id pawnIndex with
  | .thrown => .crashed
  | .err e => .rejected e
  | .ok game =>
    match game.players.find? (fun p => p.socketId = id) with
    | none => .crashed
    | some player =>
      match player.color with
      | none => .crashed
      | some c =>
        match (game.board.pawns.get c).get? pawnIndex with
        | none => .crashed
        | some pawn =>
          let startingSquareId := pawn.squareId
          let game := removeMitosisIfNeeded game pawn
          let game := removeKaryogamyIfNeeded game pawn
          let squaresIds := roadPath game.board.road pawn.color pawn.squareId game.dice.result
          match squaresIds.getLast? with
          | none => .crashed
          | some last =>
            match findDest game.board pawn.color last with
            | none => .crashed
            | some dest =>
              let pawn1 := { pawn with
                action := none
                squareId := dest.id
                endReached := decide (dest.id = SquareId.final pawn.color 5) }
              let pawns := ((game.board.pawns.get c).set pawnIndex
                { pawn with
                  squareId := dest.id
                  endReached := decide (dest.id = SquareId.final pawn.color 5) }).map
                (fun p => { p with action := none })
              let movePawn : MovePawn :=
                { color := pawn.color
                  index := pawn.index
                  squaresIds := squaresIds
                  startingSquareId := startingSquareId }
              let g1 := { game with board :=
                { game.board with
                  pawns := game.board.pawns.set c pawns
                  movePawn := some movePawn } }
              let g2 := applySmash g1 movePawn dest pawn1
              let g3 := addMitosisIfNeeded g2 pawn1
              .updated (addKaryogamyIfNeeded g3 pawn1)

/-- The tail of `movedPawn` (move-acknowledged) after marker pruning: maybe
record a winner, then finish the game or advance/keep the turn. -/
def movedPawnFinish (fuel : Nat) (g3 : Game) (id : String) : Outcome :=
  match g3.players.find? (fun p => p.socketId = id) with
  | none => .crashed
  | some player =>
    match player.color with
    | none => .crashed
    | some c =>
      let pawns := g3.board.pawns.get c
      let g4 :=
        if pawns.all (fun p => p.endReached) then
          { g3 with winners := setWinner g3.winners c }
        else g3
      if (winnersValues g4.winners).all (fun w => w.isSome) then .finishedGame g4
      else if g4.dice.result ≠ 6 ∨ g4.dice.count > 2 then
        match getNextPlayerF fuel g4.current g4.players g4.winners with
        | none => .stuck
        | some nxt =>
          .updated { g4 with
            current := nxt
            dice := { g4.dice with count := 0 } }
      else .updated g4

/-- `movedPawn` (move-acknowledged): prune markers, then finish via
`movedPawnFinish`.  NOTE the TS source checks
`if (id !== game?.current) return;` *before* `if (error) return { error };`,
so every validation rejection (where `game` is `null`) takes the bare
return. -/
def movedPawnHandler (fuel : Nat) (gameId? : Option String) (stored? : Option Game)
    (id : String) : Outcome :=
  match validateMovedPawn gameId? stored? id with
  | .thrown => .crashed
  | .err _ => .silent
  | .ok game =>
    if id ≠ game.current then .silent
    else
      match clearMutations game .mitosis with
      | none => .crashed
      | some g1 =>
        match clearMutations g1 .karyogamy with
        | none => .crashed
        | some g2 =>
          movedPawnFinish fuel
            { g2 with
              board := { g2.board with movePawn := none }
              dice := { g2.dice with ableToRoll := true } } id

/-! ## Specification-side descriptions of the road walk -/

/-- The global ring index of a color's exit cell (local offset 6 of its
13-cell segment). -/
def ownExitIndex (c : ColorEnum) : Nat := 13 * colorOrder c + 6

/-- Number of forward steps from ring offset `r` to the mover's own exit
cell (0 when standing on it), wrapping at 52. -/
def distToOwnExit (c : ColorEnum) (r : Nat) : Nat := (ownExitIndex c + 52 - r) % 52

/-- The path the specification describes: walk `d` steps forward from ring
offset `r`, wrapping from index 51 to 0; every step at or before the
mover's own exit cell stays on the ring, and each step after it lands in
the private lane, the first at lane index 0. -/
def specRoadPath (c : ColorEnum) (r d : Nat) : List SquareId :=
  (List.range d).map (fun k0 =>
    let k := k0 + 1
    if k ≤ distToOwnExit c r then SquareId.road ((r + k) % 52)
    else SquareId.final c (k - distToOwnExit c r - 1))

/-- A square identifier a road-move path is allowed to contain: a ring cell
`road-0..51` or one of the mover's own lane cells `final-<c>-0..5`. -/
def validPathCell (c : ColorEnum) : SquareId → Bool
  | .road n => n < 52
  | .final c2 n => c2 = c && n < 6
  | .initial _ _ => false

/-- Placeholder square used only as a `getD` default in statements whose
index is already known to be in range. -/
def squareZero : Square := { id := .road 0, color := .green }

/-- Placeholder pawn used only as a `getD` default. -/
def pawnZero : Pawn := { color := .green, index := 0, squareId := .road 0 }

/-- Placeholder initial-zone cell used only as a `getD` default. -/
def initialZero : InitialSquare := ⟨.road 0⟩

/-- Placeholder final-lane cell used only as a `getD` default. -/
def finalZero : FinalSquare := ⟨.road 0⟩

/-- The possible dice faces (the TS `DiceResult` union type `1|..|6`). -/
def diceResults : List Nat := [1, 2, 3, 4, 5, 6]

/-! ## C1 — road-move path shape -/

/-- C1: for every road move of a pawn of color `c` standing on ring offset
`r < 52` with dice result `d` drawn from the six faces, the resolver
produces exactly the specification path: `d` cells walked forward from `r`
wrapping from ring index 51 to 0, on the ring up to and including the
mover's own exit cell and in the mover's private lane afterwards (first lane
cell at index 0, incrementing by 1); the resolved new `squareId` is the last
path cell and `endReached` is true iff that cell is lane index 5. -/
theorem roadMove_path_correct :
    ∀ c ∈ colors, ∀ r < 52, ∀ d ∈ diceResults,
      roadPath createBoard.road c (.road r) d = specRoadPath c r d ∧
      (roadPath createBoard.road c (.road r) d).length = d ∧
      moveRoadResolve createBoard c (.road r) d =
        some (specRoadPath c r d, (specRoadPath c r d).getLastD (.road r),
          decide ((specRoadPath c r d).getLastD (.road r) = .final c 5)) := by
  decide

/-- Witness for C1 at a concrete input: a yellow pawn one cell before its
exit (ring offset 18, exit 19) rolling 6 walks road-19 then lane cells
0–4. -/
theorem roadMove_path_correct_witness :
    roadPath createBoard.road .yellow (.road 18) 6 = specRoadPath .yellow 18 6 ∧
    (roadPath createBoard.road .yellow (.road 18) 6).length = 6 ∧
    moveRoadResolve createBoard .yellow (.road 18) 6 =
      some (specRoadPath .yellow 18 6, (specRoadPath .yellow 18 6).getLastD (.road 18),
        decide ((specRoadPath .yellow 18 6).getLastD (.road 18) = .final .yellow 5)) :=
  roadMove_path_correct .yellow (by decide) 18 (by decide) 6 (by decide)

/-! ## C10 — road-move path safety -/

/-- C10: for every road move with dice result 1–6 from any ring cell, every
produced path cell is a valid board identifier (a ring cell below 52 or one
of the mover's own six lane cells — hence the final-lane counter never
exceeds 5), and the destination lookup over the road and the mover's final
zone succeeds, so the undefined-dereference branch is unreachable. -/
theorem roadMove_path_safe :
    ∀ c ∈ colors, ∀ r < 52, ∀ d ∈ diceResults,
      (roadPath createBoard.road c (.road r) d).all (validPathCell c) = true ∧
      (moveRoadResolve createBoard c (.road r) d).isSome = true := by
  decide

/-- Witness for C10 at a concrete input: a red pawn on its own exit cell
(ring offset 45) rolling 6 lands on lane index 5. -/
theorem roadMove_path_safe_witness :
    (roadPath createBoard.road .red (.road 45) 6).all (validPathCell .red) = true ∧
    (moveRoadResolve createBoard .red (.road 45) 6).isSome = true :=
  roadMove_path_safe .red (by decide) 45 (by decide) 6 (by decide)

/-! ## C3 — board topology -/

/-- C3: board generation is deterministic (it is a closed function of no
inputs) and yields a 52-cell road split into four contiguous 13-cell
segments in enumeration order, where within each segment exactly local
offsets 3 and 8 are safe zones, exactly local offset 6 is the segment
color's exit, and exactly local offset 8 is its entrance; plus per color 4
initial-zone cells, 6 final-zone cells, and 4 pawns with pawn `i` starting
on `initial-<color>-<i>`. -/
theorem board_topology :
    createBoard.road.length = 52 ∧
    (∀ ci < 4, ∀ j < 13,
      (createBoard.road.getD (13 * ci + j) squareZero).id = .road (13 * ci + j) ∧
      (createBoard.road.getD (13 * ci + j) squareZero).color = colors.getD ci .green ∧
      ((createBoard.road.getD (13 * ci + j) squareZero).safeZone = true ↔ (j = 3 ∨ j = 8)) ∧
      ((createBoard.road.getD (13 * ci + j) squareZero).exit = true ↔ j = 6) ∧
      ((createBoard.road.getD (13 * ci + j) squareZero).entrance = true ↔ j = 8)) ∧
    (∀ c ∈ colors,
      (createBoard.initialZone.get c).length = 4 ∧
      (createBoard.finalZone.get c).length = 6 ∧
      (createBoard.pawns.get c).length = 4 ∧
      (∀ i < 4, (createBoard.initialZone.get c).getD i initialZero = ⟨.initial c i⟩) ∧
      (∀ i < 6, (createBoard.finalZone.get c).getD i finalZero = ⟨.final c i⟩) ∧
      (∀ i < 4, (createBoard.pawns.get c).getD i pawnZero =
        { color := c, index := i, squareId := .initial c i })) := by
  decide

/-- Witness for C3 at concrete indices: segment 2 (blue) has its exit at
global ring index 32 and its safe entrance at 34, and blue pawn 2 starts on
`initial-blue-2`. -/
theorem board_topology_witness :
    ((createBoard.road.getD (13 * 2 + 6) squareZero).exit = true ↔ (6 : Nat) = 6) ∧
    ((createBoard.road.getD (13 * 2 + 8) squareZero).entrance = true ↔ (8 : Nat) = 8) ∧
    (createBoard.pawns.get .blue).getD 2 pawnZero =
      { color := .blue, index := 2, squareId := .initial .blue 2 } :=
  ⟨(board_topology.2.1 2 (by decide) 6 (by decide)).2.2.2.1,
   (board_topology.2.1 2 (by decide) 8 (by decide)).2.2.2.2,
   ((board_topology.2.2 .blue (by decide)).2.2.2.2.2 2 (by decide))⟩

/-! ## Concrete fixtures -/

/-- A well-formed roster: four players with distinct colors in order. -/
def players4 : List Player :=
  [⟨"p0", some .green⟩, ⟨"p1", some .yellow⟩, ⟨"p2", some .blue⟩, ⟨"p3", some .red⟩]

/-- A well-formed mid-setup game on a fresh board. -/
def baseGame : Game :=
  { id := "g"
    players := players4
    board := createBoard
    current := "p0"
    dice := { count := 0, result := 1, ableToRoll := false, rollAnimation := false }
    winners := ⟨none, none, none⟩ }

/-- Every color is a member of the enumeration list. -/
theorem mem_colors (c : ColorEnum) : c ∈ colors := by cases c <;> decide

/-! ## C5 — next-player selection -/

/-- A corrupted roster: every player carries the same color. -/
def corruptPlayers : List Player :=
  [⟨"p0", some .green⟩, ⟨"p1", some .green⟩, ⟨"p2", some .green⟩, ⟨"p3", some .green⟩]

/-- Corrupted winners slots already holding that color. -/
def corruptWinners : Winners := ⟨some .green, none, none⟩

/-- Every corrupted-roster player is green. -/
theorem corruptPlayers_green : ∀ np ∈ corruptPlayers, np.color = some ColorEnum.green := by
  intro np h
  simp only [corruptPlayers, List.mem_cons, List.not_mem_nil, or_false] at h
  rcases h with rfl | rfl | rfl | rfl <;> rfl

/-- On the corrupted state every probe is skipped, so the recursion never
returns within any finite number of probes: the TS original, which has no
termination guard, recurses forever. -/
theorem getNextPlayerF_corrupt (fuel : Nat) :
    ∀ current, getNextPlayerF fuel current corruptPlayers corruptWinners = none := by
  induction fuel with
  | zero => intro _; rfl
  | succ n ih =>
    intro current
    rw [getNextPlayerF]
    split
    · rfl
    · next np heq =>
      have hc := corruptPlayers_green np (List.get?_mem heq)
      rw [hc, if_pos (by decide : some ColorEnum.green ∈ winnersValues corruptWinners)]
      exact ih np.socketId

/-- Counterexample to C5: the selection has no explicit termination guard —
on a corrupted state where every player's color occupies a winners slot it
does not terminate within 4 probes (nor within 100). -/
theorem getNextPlayer_unguarded_cex :
    getNextPlayerF 4 "p0" corruptPlayers corruptWinners = none ∧
    getNextPlayerF 100 "p0" corruptPlayers corruptWinners = none :=
  ⟨getNextPlayerF_corrupt 4 "p0", getNextPlayerF_corrupt 100 "p0"⟩

/-- The option colors a winners slot can hold. -/
def optColors : List (Option ColorEnum) := none :: colors.map some

/-- `true` iff the scheduler picked some player of the roster whose color
occupies no winners slot. -/
def eligiblePick (w : Winners) (o : Option String) : Bool :=
  match o with
  | none => false
  | some s => players4.any (fun p => p.socketId = s ∧ ¬ (p.color ∈ winnersValues w))

/-- C5 amended: selection advances circularly from the current slot and
skips winners colors, and whenever some roster player's color occupies no
winners slot the recursion terminates within 4 probes returning such a
player; but there is no explicit termination guard, so on a fully corrupted
state it diverges (see the counterexample). -/
theorem getNextPlayer_skips_winners :
    ∀ current ∈ ["p0", "p1", "p2", "p3"],
      ∀ w1 ∈ optColors, ∀ w2 ∈ optColors, ∀ w3 ∈ optColors,
        players4.any (fun p => ¬ (p.color ∈ winnersValues ⟨w1, w2, w3⟩)) = true →
          eligiblePick ⟨w1, w2, w3⟩
            (getNextPlayerF 4 current players4 ⟨w1, w2, w3⟩) = true := by
  decide

/-- Witness for the amended C5: with green already in a winners slot and p0
to move, the scheduler returns p1 (yellow), an eligible color. -/
theorem getNextPlayer_skips_winners_witness :
    eligiblePick ⟨some .green, none, none⟩
      (getNextPlayerF 4 "p0" players4 ⟨some .green, none, none⟩) = true :=
  getNextPlayer_skips_winners "p0" (by decide) (some .green) (by decide) none (by decide)
    none (by decide) (by decide)

/-! ## C6 — when rolling is permitted -/

/-- A full roster in which nobody has chosen a color yet. -/
def playersNoColor : List Player :=
  [⟨"p0", none⟩, ⟨"p1", none⟩, ⟨"p2", none⟩, ⟨"p3", none⟩]

/-- A four-player game before any color choice. -/
def gamePre : Game :=
  { id := "g"
    players := playersNoColor
    board := createBoard
    current := "p0"
    dice := { count := 0, result := 1, ableToRoll := false, rollAnimation := false }
    winners := ⟨none, none, none⟩ }

/-- The state `chooseColor` produces when only p0 picks green. -/
def gamePost : Game :=
  { gamePre with
    players := [⟨"p0", some .green⟩, ⟨"p1", none⟩, ⟨"p2", none⟩, ⟨"p3", none⟩]
    dice := { count := 0, result := 1, ableToRoll := true, rollAnimation := false } }

/-- Counterexample to C6: after a single color choice in a 4-player game the
code sets `ableToRoll` and the roll-dice validation passes for the current
player, although three players have not chosen any color. -/
theorem diceRoll_without_all_colors_cex :
    chooseColorHandler (some "g") (some gamePre) "p0" (some .green) = .updated gamePost ∧
    validateDiceRoll (some "g") (some gamePost) "p0" = .ok gamePost ∧
    gamePost.dice.ableToRoll = true ∧
    (gamePost.players.filter (fun p => p.color.isSome)).length = 1 := by
  decide

/-- `validateGame` only ever approves the game it was handed from the
store. -/
theorem validateGame_stored {gameId? : Option String} {stored? : Option Game} {id : String}
    {game : Game} (h : validateGame gameId? stored? id = .ok game) : stored? = some game := by
  unfold validateGame at h
  rcases gameId? with _ | gid
  · cases h
  rcases stored? with _ | g
  · cases h
  dsimp only at h
  split at h
  · cases h
  · split at h
    · cases h
    · split at h
      · split at h
        · cases h
        · cases h; rfl
      · cases h; rfl

/-- C6 amended: the roll-dice validation passes exactly when the base game
validation passes, the requester is the current player, `ableToRoll` is set
and the game has 4 players; `chooseColor` sets `ableToRoll` to "the game has
4 players" (regardless of how many of them have chosen colors); and choosing
an already-taken color is always rejected, which is what keeps chosen colors
pairwise distinct. -/
theorem diceRoll_gate_amended :
    (∀ (gid : String) (g : Game) (id : String),
      validateDiceRoll (some gid) (some g) id = .ok g ↔
        (validateGame (some gid) (some g) id = .ok g ∧ g.current = id ∧
          g.dice.ableToRoll = true ∧ g.players.length = 4)) ∧
    (∀ (gid : String) (g : Game) (id : String) (c : Option ColorEnum) (g1 : Game),
      chooseColorHandler (some gid) (some g) id c = .updated g1 →
        g1.dice.ableToRoll = (g1.players.length == 4)) ∧
    (∀ (gid : String) (g : Game) (id : String) (c : ColorEnum) (g2 : Game),
      g.players.any (fun p => p.color = some c) = true →
        validateChoosenColor (some gid) (some g) id (some c) ≠ .ok g2) := by
  refine ⟨?_, ?_, ?_⟩
  · intro gid g id
    constructor
    · intro h
      unfold validateDiceRoll at h
      cases hv : validateGame (some gid) (some g) id with
      | thrown => rw [hv] at h; cases h
      | err e => rw [hv] at h; cases h
      | ok game =>
        have hg : game = g := by
          have := validateGame_stored hv
          injection this with this
          exact this.symm
        subst hg
        rw [hv] at h
        dsimp only at h
        by_cases hcur : game.current = id
        · rw [if_neg (not_ne_iff.mpr hcur)] at h
          by_cases hroll : game.dice.ableToRoll = true
          · rw [if_neg (not_not_intro hroll)] at h
            by_cases hlen : game.players.length = 4
            · exact ⟨rfl, hcur, hroll, hlen⟩
            · rw [if_pos hlen] at h; cases h
          · rw [if_pos hroll] at h; cases h
        · rw [if_pos hcur] at h; cases h
    · rintro ⟨h1, h2, h3, h4⟩
      unfold validateDiceRoll
      rw [h1]
      simp [h2, h3, h4]
  · intro gid g id c g1 h
    unfold chooseColorHandler at h
    cases hv : validateChoosenColor (some gid) (some g) id c with
    | thrown => rw [hv] at h; cases h
    | err e => rw [hv] at h; cases h
    | ok game =>
      rw [hv] at h
      dsimp only at h
      split at h
      · cases h
      · cases h; rfl
  · intro gid g id c g2 htaken hcontra
    unfold validateChoosenColor at hcontra
    cases hv : validateGame (some gid) (some g) id with
    | thrown => rw [hv] at hcontra; cases hcontra
    | err e => rw [hv] at hcontra; cases hcontra
    | ok game =>
      have hg : game = g := by
        have := validateGame_stored hv
        injection this with this
        exact this.symm
      subst hg
      rw [hv] at hcontra
      dsimp only at hcontra
      simp [mem_colors c, htaken] at hcontra

/-- Witness for the amended C6: choosing green a second time is rejected in
the single-choice state. -/
theorem diceRoll_gate_amended_witness :
    validateChoosenColor (some "g") (some gamePost) "p1" (some ColorEnum.green) ≠
      VOut.ok gamePost :=
  diceRoll_gate_amended.2.2 "g" gamePost "p1" .green gamePost (by decide)

/-! ## C7 — marker pruning on acknowledgment -/

/-- Projection of the `updated` outcome. -/
def updatedGame : Outcome → Option Game
  | .updated g => some g
  | _ => none

/-- The mover's marker on the square it vacated, already flagged removed by
`removeMitosisIfNeeded` when the move resolved. -/
def removedMarker7 : MitosisIdentifier :=
  { color := .green, index := 0, position := some .topLeft, type := .removed }

/-- A surviving marker of another color on the same vacated square. -/
def addedMarker7 : MitosisIdentifier :=
  { color := .blue, index := 1, position := some .topRight, type := .added }

/-- Green pawns after a two-cell road move from road-8 to road-10. -/
def greenPawns7 : List Pawn :=
  [{ color := .green, index := 0, squareId := .road 10 },
   { color := .green, index := 1, squareId := .initial .green 1 },
   { color := .green, index := 2, squareId := .initial .green 2 },
   { color := .green, index := 3, squareId := .initial .green 3 }]

/-- Board state awaiting acknowledgment of that move: the last-move
descriptor records start `road-8` and path `[road-9, road-10]`, and the
vacated cell `road-8` still holds the removed-flagged marker. -/
def board7 : Board :=
  { createBoard with
    pawns := { createBoard.pawns with green := greenPawns7 }
    movePawn := some
      { color := .green
        index := 0
        startingSquareId := .road 8
        squaresIds := [.road 9, .road 10] }
    mitosis := [(.road 8, [removedMarker7, addedMarker7])] }

/-- The game awaiting the acknowledgment. -/
def game7 : Game :=
  { id := "g"
    players := players4
    board := board7
    current := "p0"
    dice := { count := 1, result := 3, ableToRoll := false, rollAnimation := false }
    winners := ⟨none, none, none⟩ }

/-- C7 evaluated at the failing input: `clearMutations` prunes the cell
obtained by shifting the recorded *path* (`road-9`, then `road-10` on the
second call) plus the pawn's current cell, never the vacated starting square
`road-8` — so after the acknowledgment completes the marker flagged
`removed` on the vacated cell is still present, contradicting the claim that
no removed-flagged marker survives. -/
theorem movedPawn_keeps_removed_marker_on_vacated_cell :
    lookupSq game7.board.mitosis (.road 8) = some [removedMarker7, addedMarker7] ∧
    game7.board.movePawn.map (fun mp => mp.startingSquareId) = some (.road 8) ∧
    (updatedGame (movedPawnHandler 4 (some "g") (some game7) "p0")).isSome = true ∧
    (updatedGame (movedPawnHandler 4 (some "g") (some game7) "p0")).map
      (fun g2 => lookupSq g2.board.mitosis (.road 8)) =
      some (some [removedMarker7, addedMarker7]) := by
  decide

/-! ## C8 — rejection means no mutation -/

/-- C8: for every validator-gated inbound action, a validation rejection
makes the handler return exactly the rejection outcome: `rejected e` carries
only the `{ error }` payload — no successor state exists, so nothing is
persisted and no game-updated broadcast is sent (only `updated` and
`finishedGame` outcomes carry state); `movedPawn` surfaces its rejections as
the bare `silent` return, likewise with no state.  Validation itself is a
pure function evaluated before any mutation. -/
theorem rejection_no_mutation :
    (∀ gid? g? id c e, validateChoosenColor gid? g? id c = .err e →
      chooseColorHandler gid? g? id c = .rejected e) ∧
    (∀ gid? g? id roll e, validateDiceRoll gid? g? id = .err e →
      rollDiceHandler gid? g? id roll = .rejected e) ∧
    (∀ fuel gid? g? id e, validateDiceResult gid? g? id = .err e →
      rollResultHandler fuel gid? g? id = .rejected e) ∧
    (∀ gid? g? id i e, validateInitialMove gid? g? id i = .err e →
      moveInitialHandler gid? g? id i = .rejected e) ∧
    (∀ gid? g? id i e, validateFinalMove gid? g? id i = .err e →
      moveFinalHandler gid? g? id i = .rejected e) ∧
    (∀ gid? g? id i e, validateRoadMove gid? g? id i = .err e →
      moveRoadHandler gid? g? id i = .rejected e) ∧
    (∀ fuel gid? g? id e, validateMovedPawn gid? g? id = .err e →
      movedPawnHandler fuel gid? g? id = .silent) := by
  refine ⟨?_, ?_, ?_, ?_, ?_, ?_, ?_⟩
  · intro gid? g? id c e h; unfold chooseColorHandler; rw [h]
  · intro gid? g? id roll e h; unfold rollDiceHandler; rw [h]
  · intro fuel gid? g? id e h; unfold rollResultHandler; rw [h]
  · intro gid? g? id i e h; unfold moveInitialHandler; rw [h]
  · intro gid? g? id i e h; unfold moveFinalHandler; rw [h]
  · intro gid? g? id i e h; unfold moveRoadHandler; rw [h]
  · intro fuel gid? g? id e h; unfold movedPawnHandler; rw [h]

/-- Witness for C8: an unknown session is rejected with `Not in game` and
the road-move handler returns only that payload. -/
theorem rejection_no_mutation_witness :
    moveRoadHandler none none "x" 0 = .rejected "Not in game" :=
  rejection_no_mutation.2.2.2.2.2.1 none none "x" 0 "Not in game" rfl

/-! ## C9 — the shape of rejection responses -/

/-- Counterexample to C9: the move-acknowledged handler checks
`id !== game?.current` before the error check, and on a rejection `game` is
null, so the requester gets a bare (absent) return instead of the claimed
`{ error }` payload. -/
theorem movedPawn_absent_response_cex :
    validateMovedPawn (some "g") (some baseGame) "ghost" = .err "Not in game" ∧
    movedPawnHandler 4 (some "g") (some baseGame) "ghost" = .silent := by
  decide

/-- The tail of the move-acknowledged handler never produces an error
payload. -/
theorem movedPawnFinish_ne_rejected (fuel : Nat) (g3 : Game) (id : String) (e : String) :
    movedPawnFinish fuel g3 id ≠ .rejected e := by
  intro h
  unfold movedPawnFinish at h
  rcases hfind : g3.players.find? (fun p => p.socketId = id) with _ | player <;>
    rw [hfind] at h
  · cases h
  dsimp only at h
  rcases hcol : player.color with _ | c <;> rw [hcol] at h
  · cases h
  dsimp only at h
  by_cases hall : ((g3.board.pawns.get c).all fun p => p.endReached) = true
  · rw [if_pos hall] at h
    dsimp only at h
    by_cases hfull : ((winnersValues (setWinner g3.winners c)).all fun w => w.isSome) = true
    · rw [if_pos hfull] at h; cases h
    · rw [if_neg hfull] at h
      by_cases hadv : g3.dice.result ≠ 6 ∨ g3.dice.count > 2
      · rw [if_pos hadv] at h
        rcases hnp : getNextPlayerF fuel g3.current g3.players (setWinner g3.winners c)
            with _ | nxt <;> rw [hnp] at h <;> cases h
      · rw [if_neg hadv] at h; cases h
  · rw [if_neg hall] at h
    by_cases hfull : ((winnersValues g3.winners).all fun w => w.isSome) = true
    · rw [if_pos hfull] at h; cases h
    · rw [if_neg hfull] at h
      by_cases hadv : g3.dice.result ≠ 6 ∨ g3.dice.count > 2
      · rw [if_pos hadv] at h
        rcases hnp : getNextPlayerF fuel g3.current g3.players g3.winners
            with _ | nxt <;> rw [hnp] at h <;> cases h
      · rw [if_neg hadv] at h; cases h

/-- C9 amended: every validator-gated handler except move-acknowledged
returns the `{ error }` payload on rejection; move-acknowledged instead
returns an absent payload whenever validation rejects (and also when the
requester is not the current player), and its own error-payload branch is
unreachable: it never returns an error payload at all. -/
theorem error_payload_shape :
    (∀ gid? g? id c e, validateChoosenColor gid? g? id c = .err e →
      chooseColorHandler gid? g? id c = .rejected e) ∧
    (∀ gid? g? id roll e, validateDiceRoll gid? g? id = .err e →
      rollDiceHandler gid? g? id roll = .rejected e) ∧
    (∀ fuel gid? g? id e, validateDiceResult gid? g? id = .err e →
      rollResultHandler fuel gid? g? id = .rejected e) ∧
    (∀ gid? g? id i e, validateInitialMove gid? g? id i = .err e →
      moveInitialHandler gid? g? id i = .rejected e) ∧
    (∀ gid? g? id i e, validateFinalMove gid? g? id i = .err e →
      moveFinalHandler gid? g? id i = .rejected e) ∧
    (∀ gid? g? id i e, validateRoadMove gid? g? id i = .err e →
      moveRoadHandler gid? g? id i = .rejected e) ∧
    (∀ fuel gid? g? id e, validateMovedPawn gid? g? id = .err e →
      movedPawnHandler fuel gid? g? id = .silent) ∧
    (∀ fuel gid? g? id e, movedPawnHandler fuel gid? g? id ≠ .rejected e) := by
  refine ⟨?_, ?_, ?_, ?_, ?_, ?_, ?_, ?_⟩
  · intro gid? g? id c e h; unfold chooseColorHandler; rw [h]
  · intro gid? g? id roll e h; unfold rollDiceHandler; rw [h]
  · intro fuel gid? g? id e h; unfold rollResultHandler; rw [h]
  · intro gid? g? id i e h; unfold moveInitialHandler; rw [h]
  · intro gid? g? id i e h; unfold moveFinalHandler; rw [h]
  · intro gid? g? id i e h; unfold moveRoadHandler; rw [h]
  · intro fuel gid? g? id e h; unfold movedPawnHandler; rw [h]
  · intro fuel gid? g? id e h
    unfold movedPawnHandler at h
    repeat' split at h
    all_goals first
      | cases h
      | exact movedPawnFinish_ne_rejected _ _ _ _ h

/-- Witness for the amended C9: the unknown-session rejection at the
choose-color handler yields exactly the `{ error }` payload. -/
theorem error_payload_shape_witness :
    chooseColorHandler none none "x" none = .rejected "Not in game" :=
  error_payload_shape.1 none none "x" none "Not in game" rfl

/-! ## C4 — consecutive-six turn chaining -/

/-- Pruning one cell's markers only touches the board. -/
theorem pruneCell_preserves (g : Game) (k : MutKind) (sq : SquareId) :
    (pruneCell g k sq).dice = g.dice ∧ (pruneCell g k sq).current = g.current ∧
    (pruneCell g k sq).players = g.players ∧ (pruneCell g k sq).winners = g.winners := by
  cases k <;> unfold pruneCell <;> dsimp only <;> split <;> exact ⟨rfl, rfl, rfl, rfl⟩

/-- Folding the pruning over a list of cells only touches the board. -/
theorem foldl_pruneCell_preserves (k : MutKind) (cells : List SquareId) : ∀ g : Game,
    (cells.foldl (fun g sq => pruneCell g k sq) g).dice = g.dice ∧
    (cells.foldl (fun g sq => pruneCell g k sq) g).current = g.current ∧
    (cells.foldl (fun g sq => pruneCell g k sq) g).players = g.players ∧
    (cells.foldl (fun g sq => pruneCell g k sq) g).winners = g.winners := by
  induction cells with
  | nil => intro g; exact ⟨rfl, rfl, rfl, rfl⟩
  | cons a t ih =>
    intro g
    have h1 := pruneCell_preserves g k a
    have h2 := ih (pruneCell g k a)
    exact ⟨h2.1.trans h1.1, h2.2.1.trans h1.2.1, h2.2.2.1.trans h1.2.2.1,
      h2.2.2.2.trans h1.2.2.2⟩

/-- `clearMutations` only touches the board. -/
theorem clearMutations_preserves (g : Game) (k : MutKind) (g1 : Game)
    (h : clearMutations g k = some g1) :
    g1.dice = g.dice ∧ g1.current = g.current ∧
    g1.players = g.players ∧ g1.winners = g.winners := by
  unfold clearMutations at h
  rcases hmp : g.board.movePawn with _ | mp <;> rw [hmp] at h
  · injection h with h
    subst h
    exact ⟨rfl, rfl, rfl, rfl⟩
  · dsimp only at h
    rcases hrp : (g.board.pawns.get mp.color).find? (fun p => p.index = mp.index)
        with _ | rp <;> rw [hrp] at h
    · cases h
    · dsimp only at h
      injection h with h
      subst h
      exact foldl_pruneCell_preserves k _ _

/-- How the tail of the move-acknowledged handler sets the dice and the turn
pointer when it produces an updated state. -/
theorem movedPawnFinish_updated (fuel : Nat) (g3 : Game) (id : String) (g2 : Game)
    (h : movedPawnFinish fuel g3 id = .updated g2) :
    g2.dice.ableToRoll = g3.dice.ableToRoll ∧
    (if g3.dice.result ≠ 6 ∨ g3.dice.count > 2
     then g2.dice.count = 0 ∧
       getNextPlayerF fuel g3.current g3.players g2.winners = some g2.current
     else g2.current = g3.current ∧ g2.dice.count = g3.dice.count) := by
  unfold movedPawnFinish at h
  rcases hfind : g3.players.find? (fun p => p.socketId = id) with _ | player <;>
    rw [hfind] at h
  · cases h
  dsimp only at h
  rcases hcol : player.color with _ | c <;> rw [hcol] at h
  · cases h
  dsimp only at h
  by_cases hall : ((g3.board.pawns.get c).all fun p => p.endReached) = true
  · rw [if_pos hall] at h
    dsimp only at h
    by_cases hfull : ((winnersValues (setWinner g3.winners c)).all fun w => w.isSome) = true
    · rw [if_pos hfull] at h; cases h
    · rw [if_neg hfull] at h
      by_cases hadv : g3.dice.result ≠ 6 ∨ g3.dice.count > 2
      · rw [if_pos hadv] at h
        rcases hnp : getNextPlayerF fuel g3.current g3.players (setWinner g3.winners c)
            with _ | nxt <;> rw [hnp] at h
        · cases h
        · injection h with h
          subst h
          exact ⟨rfl, by rw [if_pos hadv]; exact ⟨rfl, hnp⟩⟩
      · rw [if_neg hadv] at h
        injection h with h
        subst h
        exact ⟨rfl, by rw [if_neg hadv]; exact ⟨rfl, rfl⟩⟩
  · rw [if_neg hall] at h
    by_cases hfull : ((winnersValues g3.winners).all fun w => w.isSome) = true
    · rw [if_pos hfull] at h; cases h
    · rw [if_neg hfull] at h
      by_cases hadv : g3.dice.result ≠ 6 ∨ g3.dice.count > 2
      · rw [if_pos hadv] at h
        rcases hnp : getNextPlayerF fuel g3.current g3.players g3.winners
            with _ | nxt <;> rw [hnp] at h
        · cases h
        · injection h with h
          subst h
          exact ⟨rfl, by rw [if_pos hadv]; exact ⟨rfl, hnp⟩⟩
      · rw [if_neg hadv] at h
        injection h with h
        subst h
        exact ⟨rfl, by rw [if_neg hadv]; exact ⟨rfl, rfl⟩⟩

/-- C4: whenever the acknowledged move leaves the game live (the handler
returns an updated state), `ableToRoll` is granted again, and the roll count
resets to 0 with the turn passed to the next scheduled player if and only if
the last dice face is not 6 or the roll count exceeds 2; otherwise the same
player keeps the turn with the roll count intact — so a 6 grants another
roll and a chain is cut after the third roll regardless of the face. -/
theorem movedPawn_turn_chain :
    ∀ (fuel : Nat) (gid : String) (g : Game) (id : String) (g2 : Game),
      movedPawnHandler fuel (some gid) (some g) id = .updated g2 →
        g2.dice.ableToRoll = true ∧
        (if g.dice.result ≠ 6 ∨ g.dice.count > 2
         then g2.dice.count = 0 ∧
           getNextPlayerF fuel g.current g.players g2.winners = some g2.current
         else g2.current = g.current ∧ g2.dice.count = g.dice.count) := by
  intro fuel gid g id g2 h
  unfold movedPawnHandler at h
  cases hv : validateMovedPawn (some gid) (some g) id with
  | thrown => rw [hv] at h; cases h
  | err e => rw [hv] at h; cases h
  | ok game =>
    rw [hv] at h
    dsimp only at h
    have hst : game = g := by
      have hv2 : validateGame (some gid) (some g) id = .ok game := hv
      have h2 := validateGame_stored hv2
      injection h2 with h2
      exact h2.symm
    subst hst
    by_cases hc : id ≠ game.current
    · rw [if_pos hc] at h; cases h
    · rw [if_neg hc] at h
      rcases h1 : clearMutations game .mitosis with _ | gA <;> rw [h1] at h
      · cases h
      dsimp only at h
      rcases h2 : clearMutations gA .karyogamy with _ | gB <;> rw [h2] at h
      · cases h
      dsimp only at h
      have pA := clearMutations_preserves game .mitosis gA h1
      have pB := clearMutations_preserves gA .karyogamy gB h2
      have hdice : gB.dice = game.dice := pB.1.trans pA.1
      have hcur : gB.current = game.current := pB.2.1.trans pA.2.1
      have hpl : gB.players = game.players := pB.2.2.1.trans pA.2.2.1
      have L := movedPawnFinish_updated fuel _ id g2 h
      dsimp only at L
      rw [hdice, hcur, hpl] at L
      exact ⟨L.1, L.2⟩

/-- Witness for C4 at the concrete acknowledgment fixture (dice face 3,
count 1): the roll count resets and the turn passes to p1. -/
theorem movedPawn_turn_chain_witness :
    ((updatedGame (movedPawnHandler 4 (some "g") (some game7) "p0")).getD baseGame).dice.ableToRoll
      = true ∧
    (if game7.dice.result ≠ 6 ∨ game7.dice.count > 2
     then ((updatedGame (movedPawnHandler 4 (some "g") (some game7) "p0")).getD
         baseGame).dice.count = 0 ∧
       getNextPlayerF 4 game7.current game7.players
         ((updatedGame (movedPawnHandler 4 (some "g") (some game7) "p0")).getD baseGame).winners =
         some ((updatedGame (movedPawnHandler 4 (some "g") (some game7) "p0")).getD
           baseGame).current
     else ((updatedGame (movedPawnHandler 4 (some "g") (some game7) "p0")).getD
         baseGame).current = game7.current ∧
       ((updatedGame (movedPawnHandler 4 (some "g") (some game7) "p0")).getD
         baseGame).dice.count = game7.dice.count) :=
  movedPawn_turn_chain 4 "g" game7 "p0" _ (by decide)

/-! ## C2 — the capture rule -/

/-- `findSome?` succeeds iff some element succeeds. -/
theorem findSome?_isSome_iff {α β : Type} {f : α → Option β} {l : List α} :
    (l.findSome? f).isSome = true ↔ ∃ a ∈ l, (f a).isSome = true := by
  induction l with
  | nil => simp [List.findSome?_nil]
  | cons x xs ih =>
    rw [List.findSome?_cons]
    cases hfx : f x with
    | none => simp [hfx, ih]
    | some b => simp [hfx]

/-- A successful `findSome?` exhibits a successful element. -/
theorem findSome?_some_exists {α β : Type} {f : α → Option β} {l : List α} {b : β}
    (h : l.findSome? f = some b) : ∃ a ∈ l, f a = some b := by
  rw [List.findSome?_eq_some_iff] at h
  obtain ⟨l1, a, l2, rfl, hfa, -⟩ := h
  exact ⟨a, by simp, hfa⟩

/-- The element `find?` returns is the one `updateFirst` rewrites. -/
theorem updateFirst_find? {α : Type} {p : α → Bool} (f : α → α) {l : List α} {a : α}
    (h : l.find? p = some a) : f a ∈ updateFirst p f l := by
  induction l with
  | nil => cases h
  | cons x xs ih =>
    unfold updateFirst
    by_cases hx : p x = true
    · rw [List.find?_cons_of_pos _ hx] at h
      injection h with h
      subst h
      rw [if_pos hx]
      exact List.mem_cons_self _ _
    · rw [List.find?_cons_of_neg _ (by simpa using hx)] at h
      rw [if_neg hx]
      exact List.mem_cons_of_mem _ (ih h)

/-- Reading back the color that was just written. -/
theorem ColorMap.get_set_self {α : Type} (m : ColorMap α) (c : ColorEnum) (v : List α) :
    (m.set c v).get c = v := by
  cases c <;> rfl

/-- Adding mitosis markers never touches the pawns or the move descriptor. -/
theorem addMitosis_board (g : Game) (p : Pawn) :
    (addMitosisIfNeeded g p).board.movePawn = g.board.movePawn ∧
    (addMitosisIfNeeded g p).board.pawns = g.board.pawns := by
  unfold addMitosisIfNeeded
  dsimp only
  repeat' split
  all_goals exact ⟨rfl, rfl⟩

/-- Adding karyogamy markers never touches the pawns or the move
descriptor. -/
theorem addKaryogamy_board (g : Game) (p : Pawn) :
    (addKaryogamyIfNeeded g p).board.movePawn = g.board.movePawn ∧
    (addKaryogamyIfNeeded g p).board.pawns = g.board.pawns := by
  unfold addKaryogamyIfNeeded
  dsimp only
  repeat' split
  all_goals exact ⟨rfl, rfl⟩

/-- Every pawn is stored in the list of its own color. -/
def pawnsWellFormed (g : Game) : Prop :=
  ∀ c : ColorEnum, ∀ p ∈ g.board.pawns.get c, p.color = c

/-- C2: (1) on any board whose pawns are stored under their own colors,
`smashPawn` succeeds iff the destination is a ring cell, not a safe zone,
exactly 2 pawns occupy it after the move, and one of them (the non-mover)
belongs to a different color; (2) when a capture is found, the capture
application resets the captured pawn to its own initial-zone cell at its own
index and records its color and index on the last-move descriptor; (3)–(4)
entry moves and home-lane moves never record a capture (the smash field of
the descriptor they produce is empty and they touch no other pawns'
squares). -/
theorem capture_rule :
    (∀ (g : Game) (dest : DestSquare) (pawn : Pawn),
      pawnsWellFormed g →
        ((smashPawn g dest pawn).isSome = true ↔
          (dest.id.isFinal = false ∧ dest.safeZone = false ∧
            (getPawnsOnRoad g dest.id).length = 2 ∧
            ∃ p ∈ getPawnsOnRoad g dest.id, p.color ≠ pawn.color))) ∧
    (∀ (g1 : Game) (mp : MovePawn) (dest : DestSquare) (pawn1 : Pawn) (q : Pawn),
      pawnsWellFormed g1 →
        smashPawn g1 dest pawn1 = some q →
          (applySmash g1 mp dest pawn1).board.movePawn =
            some { mp with smash := some ⟨q.color, q.index⟩ } ∧
          ∃ p ∈ (applySmash g1 mp dest pawn1).board.pawns.get q.color,
            p.index = q.index ∧ p.squareId = .initial q.color q.index) ∧
    (∀ gid? g? id i g2,
      moveInitialHandler gid? g? id i = .updated g2 →
        ∃ mp, g2.board.movePawn = some mp ∧ mp.smash = none) ∧
    (∀ gid? g? id i g2,
      moveFinalHandler gid? g? id i = .updated g2 →
        ∃ mp, g2.board.movePawn = some mp ∧ mp.smash = none) := by
  refine ⟨?_, ?_, ?_, ?_⟩
  · intro g dest pawn hwf
    unfold smashPawn
    by_cases h1 : dest.id.isFinal = true
    · rw [if_pos h1]
      simp [h1]
    · rw [if_neg h1]
      have h1f : dest.id.isFinal = false := by revert h1; cases dest.id.isFinal <;> simp
      by_cases h2 : dest.safeZone = true
      · rw [if_pos h2]
        simp [h2]
      · rw [if_neg h2]
        have h2f : dest.safeZone = false := by revert h2; cases dest.safeZone <;> simp
        by_cases h3 : (getPawnsOnRoad g dest.id).length ≠ 2
        · rw [if_pos h3]
          simp [h3]
        · rw [if_neg h3]
          push_neg at h3
          rw [findSome?_isSome_iff]
          constructor
          · rintro ⟨c2, hc2, hfind⟩
            rw [List.find?_isSome] at hfind
            obtain ⟨p, hp, hps⟩ := hfind
            rw [List.mem_filter] at hc2
            have hpc : p.color = c2 := hwf c2 p hp
            have hpsq : p.squareId = dest.id := by simpa using hps
            refine ⟨h1f, h2f, h3, p, ?_, ?_⟩
            · rw [getPawnsOnRoad, List.mem_flatMap]
              exact ⟨c2, hc2.1, List.mem_filter.mpr ⟨hp, by simpa using hpsq⟩⟩
            · rw [hpc]
              simpa using hc2.2
          · rintro ⟨-, -, -, p, hpmem, hpcol⟩
            rw [getPawnsOnRoad, List.mem_flatMap] at hpmem
            obtain ⟨c2, hc2, hpf⟩ := hpmem
            rw [List.mem_filter] at hpf
            have hpc : p.color = c2 := hwf c2 p hpf.1
            refine ⟨c2, List.mem_filter.mpr ⟨hc2, ?_⟩, ?_⟩
            · simp only [decide_eq_true_eq]
              rw [← hpc]
              exact hpcol
            · rw [List.find?_isSome]
              exact ⟨p, hpf.1, hpf.2⟩
  · intro g1 mp dest pawn1 q hwf hsm
    have hsm2 := hsm
    unfold smashPawn at hsm2
    by_cases h1 : dest.id.isFinal = true
    · rw [if_pos h1] at hsm2; cases hsm2
    rw [if_neg h1] at hsm2
    by_cases h2 : dest.safeZone = true
    · rw [if_pos h2] at hsm2; cases hsm2
    rw [if_neg h2] at hsm2
    by_cases h3 : (getPawnsOnRoad g1 dest.id).length ≠ 2
    · rw [if_pos h3] at hsm2; cases hsm2
    rw [if_neg h3] at hsm2
    obtain ⟨c2, hc2, hfind⟩ := findSome?_some_exists hsm2
    have hqmem := List.mem_of_find?_eq_some hfind
    have hqc : q.color = c2 := hwf c2 q hqmem
    unfold applySmash
    rw [hsm]
    dsimp only
    refine ⟨rfl, ?_⟩
    rw [ColorMap.get_set_self]
    rw [hqc]
    exact ⟨_, updateFirst_find? _ hfind, rfl, rfl⟩
  · intro gid? g? id i g2 h
    unfold moveInitialHandler at h
    rcases hv : validateInitialMove gid? g? id i with _ | e | game <;> rw [hv] at h
    · cases h
    · cases h
    dsimp only at h
    rcases hf : game.players.find? (fun p => p.socketId = id) with _ | player <;> rw [hf] at h
    · cases h
    dsimp only at h
    rcases hcol : player.color with _ | c <;> rw [hcol] at h
    · cases h
    dsimp only at h
    rcases hg : (game.board.pawns.get c).get? i with _ | pawn <;> rw [hg] at h
    · cases h
    dsimp only at h
    rcases hr : game.board.road.find? (fun r => r.color = pawn.color ∧ r.entrance = true)
        with _ | road <;> rw [hr] at h
    · cases h
    dsimp only at h
    injection h with h
    subst h
    simp only [(addKaryogamy_board _ _).1, (addMitosis_board _ _).1]
    exact ⟨_, rfl, rfl⟩
  · intro gid? g? id i g2 h
    unfold moveFinalHandler at h
    rcases hv : validateFinalMove gid? g? id i with _ | e | game <;> rw [hv] at h
    · cases h
    · cases h
    dsimp only at h
    rcases hf : game.players.find? (fun p => p.socketId = id) with _ | player <;> rw [hf] at h
    · cases h
    dsimp only at h
    rcases hcol : player.color with _ | c <;> rw [hcol] at h
    · cases h
    dsimp only at h
    rcases hg : (game.board.pawns.get c).get? i with _ | pawn <;> rw [hg] at h
    · cases h
    dsimp only at h
    injection h with h
    subst h
    simp only [(addKaryogamy_board _ _).1]
    exact ⟨_, rfl, rfl⟩

/-- Green and yellow each have their pawn 0 on the shared non-safe ring cell
road-1; all other pawns are home. -/
def capGreen : List Pawn :=
  [{ color := .green, index := 0, squareId := .road 1 },
   { color := .green, index := 1, squareId := .initial .green 1 },
   { color := .green, index := 2, squareId := .initial .green 2 },
   { color := .green, index := 3, squareId := .initial .green 3 }]

/-- The yellow pawns of the capture fixture. -/
def capYellow : List Pawn :=
  [{ color := .yellow, index := 0, squareId := .road 1 },
   { color := .yellow, index := 1, squareId := .initial .yellow 1 },
   { color := .yellow, index := 2, squareId := .initial .yellow 2 },
   { color := .yellow, index := 3, squareId := .initial .yellow 3 }]

/-- A game whose destination cell road-1 holds the green mover plus one
yellow pawn. -/
def gameCap : Game :=
  { baseGame with board :=
    { createBoard with pawns := { generatePawns with green := capGreen, yellow := capYellow } } }

/-- The green mover standing on road-1. -/
def capMover : Pawn := { color := .green, index := 0, squareId := .road 1 }

/-- Witness for C2 at a concrete input: on the two-occupant non-safe ring
cell road-1 the capture condition is an equivalence that indeed holds. -/
theorem capture_rule_witness :
    (smashPawn gameCap { id := .road 1, safeZone := false } capMover).isSome = true ↔
      (SquareId.isFinal (.road 1) = false ∧
        ({ id := .road 1, safeZone := false } : DestSquare).safeZone = false ∧
        (getPawnsOnRoad gameCap (.road 1)).length = 2 ∧
        ∃ p ∈ getPawnsOnRoad gameCap (.road 1), p.color ≠ capMover.color) :=
  capture_rule.1 gameCap { id := .road 1, safeZone := false } capMover
    (by intro c; cases c <;> decide)

end Ludo
